import Mathlib

/-!
Shallow embedding of `src/src/actions/gps/connector/fabric.py` (OM1 GPS
Fabric connector) and proofs about its behaviour.

The connector reads three dynamic variables ("latitude", "longitude",
"yaw_deg") from its `IOProvider`, validates that none is `None`, builds a
JSON-RPC 2.0 envelope, POSTs it to the configured endpoint, and classifies
the response into a boolean.

Modelling choices:
* Python values that can appear in JSON bodies (and in the dynamic-variable
  store) are the inductive `JVal`; JSON numbers are modelled as `Int`
  (the claims only involve integral values).
* The `requests` HTTP exchange is an oracle `http : HttpRequest → HttpResult`;
  `HttpResult` covers the transport exceptions caught by the source
  (`requests.Timeout`, `requests.ConnectionError`, other
  `requests.RequestException`) and a received response.  A received
  response carries its status code, its text, and `response.json()` as an
  `Option JVal` (`none` models a `JSONDecodeError`).
* `response.ok` is `status_code < 400`, per the requests library
  documentation ("Returns True if status_code is less than 400").
* Python runtime errors that the source does not catch (`TypeError` from a
  membership test on a non-container, `AttributeError` from `.get` on a
  non-dict) are modelled by `Except PyErr`; `Except.error` means the
  exception propagates out of the method.
* Logging is observability only and is not modelled.
* Side effects are made explicit: the result of a call records the boolean
  (or escaping exception), the list of HTTP POSTs issued, and the
  connector's instance state after the call.
-/

namespace OM1GPS

/-- A Python value of the shapes JSON (de)serialisation can produce:
`None`, `bool`, number, `str`, `list`, `dict`. -/
inductive JVal where
  | null : JVal
  | bool : Bool → JVal
  | num : Int → JVal
  | str : String → JVal
  | arr : List JVal → JVal
  | obj : List (String × JVal) → JVal

/-- Uncaught Python runtime errors that can escape `send_coordinates`. -/
inductive PyErr where
  | typeError : PyErr
  | attributeError : PyErr
  | keyError : PyErr
deriving DecidableEq, Repr

/-- Substring test on lists of characters, used for Python's
`key in some_string` membership semantics. -/
def charsInfixOf : List Char → List Char → Bool
  | needle, [] => needle.isEmpty
  | needle, c :: rest => needle.isPrefixOf (c :: rest) || charsInfixOf needle rest

/-- Python equality of a `JVal` with the string `key` (only equal strings
compare equal). -/
def strElem (key : String) : JVal → Bool
  | .str s => s == key
  | _ => false

/-- Python membership `key in v` for a string `key`:
defined on `dict` (key lookup), `list` (element equality) and `str`
(substring); raises `TypeError` on `None`, `bool` and numbers. -/
def pyContains (v : JVal) (key : String) : Except PyErr Bool :=
  match v with
  | .obj kvs => .ok (List.lookup key kvs).isSome
  | .arr xs => .ok (xs.any (strElem key))
  | .str s => .ok (charsInfixOf key.toList s.toList)
  | _ => .error .typeError

/-- Python subscription `v[key]` for a string `key`: defined on `dict`
(`KeyError` when absent); `TypeError` on every other shape (list and str
indices must be integers). -/
def pyGetItem (v : JVal) (key : String) : Except PyErr JVal :=
  match v with
  | .obj kvs =>
    match List.lookup key kvs with
    | some x => .ok x
    | none => .error .keyError
  | _ => .error .typeError

/-- Python `v.get(key)`: defined on `dict` only (absent keys give `None`);
`AttributeError` on every other shape. -/
def pyGet (v : JVal) (key : String) : Except PyErr JVal :=
  match v with
  | .obj kvs => .ok ((List.lookup key kvs).getD .null)
  | _ => .error .attributeError

/-- Python truthiness of a `JVal`. -/
def pyTruthy : JVal → Bool
  | .null => false
  | .bool b => b
  | .num n => n != 0
  | .str s => !s.isEmpty
  | .arr xs => !xs.isEmpty
  | .obj kvs => !kvs.isEmpty

/-- The data of one `requests.post(url, json=body, headers=..., timeout=...)`
call issued by the connector. -/
structure HttpRequest where
  url : String
  body : JVal
  headers : List (String × String)
  timeout : Int

/-- Outcome of one HTTP POST: the three transport exception classes the
source catches, or a received response (status code, `response.text`, and
`response.json()` — `none` when the body is not valid JSON). -/
inductive HttpResult where
  | timeout : HttpResult
  | connectionError : String → HttpResult
  | requestError : String → HttpResult
  | response : Nat → String → Option JVal → HttpResult

/-- `response.ok` of the requests library: true iff `status_code < 400`. -/
def responseOk (status : Nat) : Bool :=
  status < 400

/-- `GPSFabricConfig`: endpoint URL and request timeout with their
declared defaults. -/
structure GPSFabricConfig where
  fabric_endpoint : String := "http://localhost:8545"
  request_timeout : Int := 10
deriving DecidableEq, Repr

/-- Instance state of a `GPSFabricConnector` after `__init__`: the
`IOProvider` (modelled as the dynamic-variable lookup it provides, a
snapshot `String → Option JVal`) and the two configuration copies. -/
structure GPSFabricConnector where
  io_provider : String → Option JVal
  fabric_endpoint : String
  request_timeout : Int

/-- `GPSFabricConnector.__init__`: copies `fabric_endpoint` and
`request_timeout` out of the config and installs the `IOProvider`. -/
def GPSFabricConnector.init (config : GPSFabricConfig)
    (io_provider : String → Option JVal) : GPSFabricConnector :=
  { io_provider := io_provider
    fabric_endpoint := config.fabric_endpoint
    request_timeout := config.request_timeout }

/-- Modelled from the spec: the `GPSAction` enum of
`actions/gps/interface.py` is not under `src/`; the spec says commands are
drawn from a small fixed set containing at least "share location", with
possibly other values handled elsewhere. -/
inductive GPSAction where
  | SHARE_LOCATION : GPSAction
  | other : String → GPSAction
deriving DecidableEq, Repr

/-- Result of a `send_coordinates` call: the returned boolean (or the
escaping Python exception), the POSTs issued, and the instance state after
the call. -/
structure SendResult where
  retval : Except PyErr Bool
  posts : List HttpRequest
  selfState : GPSFabricConnector

/-- Result of a `connect` call: `None` (or the escaping exception), the
POSTs issued, and the instance state after the call. -/
structure ConnectResult where
  retval : Except PyErr Unit
  posts : List HttpRequest
  selfState : GPSFabricConnector

/-- The JSON-RPC 2.0 envelope built by `send_coordinates`. -/
def shareStatusBody (latitude longitude yaw : JVal) : JVal :=
  .obj [("method", .str "omp2p_shareStatus"),
        ("params", .arr [.obj [("latitude", latitude),
                               ("longitude", longitude),
                               ("yaw", yaw)]]),
        ("id", .num 1),
        ("jsonrpc", .str "2.0")]

/-- The `requests.post` call of `send_coordinates`: endpoint from the
instance, JSON envelope, `Content-Type: application/json`, configured
timeout. -/
def mkShareRequest (self : GPSFabricConnector)
    (latitude longitude yaw : JVal) : HttpRequest :=
  { url := self.fabric_endpoint
    body := shareStatusBody latitude longitude yaw
    headers := [("Content-Type", "application/json")]
    timeout := self.request_timeout }

/-- Response handling of `send_coordinates` (the body of its outer
`try`, after the POST): transport exceptions give `False`; then the
`response.ok` check, the JSON parse, the `"error" in response_data` check
(evaluating `error.get("code")` and `error.get("message")` for the log
before returning `False`), and the `"result"` truthiness check, in source
order.  `Except.error` models an uncaught Python exception. -/
def classifyResponse (r : HttpResult) : Except PyErr Bool :=
  match r with
  | .timeout => .ok false
  | .connectionError _ => .ok false
  | .requestError _ => .ok false
  | .response status _text mjson =>
    if !(responseOk status) then .ok false
    else
      match mjson with
      | none => .ok false
      | some response_data =>
        match pyContains response_data "error" with
        | .error e => .error e
        | .ok true =>
          match pyGetItem response_data "error" with
          | .error e => .error e
          | .ok err =>
            match pyGet err "code" with
            | .error e => .error e
            | .ok _ =>
              match pyGet err "message" with
              | .error e => .error e
              | .ok _ => .ok false
        | .ok false =>
          match pyContains response_data "result" with
          | .error e => .error e
          | .ok true =>
            match pyGetItem response_data "result" with
            | .error e => .error e
            | .ok result => .ok (pyTruthy result)
          | .ok false => .ok false

/-- `GPSFabricConnector.send_coordinates`: fetch the three dynamic
variables; if `latitude is None or longitude is None or yaw is None`
return `False` without any POST; otherwise issue exactly one POST and
classify its outcome. -/
def send_coordinates (self : GPSFabricConnector)
    (http : HttpRequest → HttpResult) : SendResult :=
  match self.io_provider "latitude", self.io_provider "longitude",
        self.io_provider "yaw_deg" with
  | some latitude, some longitude, some yaw =>
    let req := mkShareRequest self latitude longitude yaw
    { retval := classifyResponse (http req), posts := [req], selfState := self }
  | _, _, _ => { retval := .ok false, posts := [], selfState := self }

/-- `GPSFabricConnector.connect`: log the action; when it equals
`GPSAction.SHARE_LOCATION` call `send_coordinates` and discard its
boolean (an uncaught exception still propagates); otherwise do nothing. -/
def connect (self : GPSFabricConnector) (action : GPSAction)
    (http : HttpRequest → HttpResult) : ConnectResult :=
  match action with
  | .SHARE_LOCATION =>
    let r := send_coordinates self http
    { retval := r.retval.map (fun _ => ()), posts := r.posts,
      selfState := r.selfState }
  | .other _ => { retval := .ok (), posts := [], selfState := self }

/-! ### Concrete fixtures used by witnesses and counterexamples -/

/-- A dynamic-variable store holding the given three values. -/
def storeOf (lat lon yaw : Option JVal) : String → Option JVal := fun k =>
  if k = "latitude" then lat
  else if k = "longitude" then lon
  else if k = "yaw_deg" then yaw
  else none

/-- A connector over the default configuration and the given store. -/
def connOf (lat lon yaw : Option JVal) : GPSFabricConnector :=
  GPSFabricConnector.init {} (storeOf lat lon yaw)

/-- An HTTP oracle answering every request with the same result. -/
def httpConst (r : HttpResult) : HttpRequest → HttpResult := fun _ => r

/-- A JSON scalar, i.e. a Python value supporting neither the membership
test `"error" in v` nor subscription: `None`, `bool` or a number. -/
def scalarJson : JVal → Bool
  | .null => true
  | .bool _ => true
  | .num _ => true
  | _ => false

/-- Whether a `JVal` is a JSON object (a Python `dict`). -/
def jvalIsObj : JVal → Bool
  | .obj _ => true
  | _ => false

/-- The parsed response bodies on which the `"error"`/`"result"` handling
of `send_coordinates` performs no undefined Python operation: an
unparseable body, an object whose `"error"` member (if any) is itself an
object, an array containing neither `"error"` nor `"result"` as an
element, or a string containing neither as a substring. -/
def jsonSafe : Option JVal → Bool
  | none => true
  | some v =>
    match v with
    | .obj kvs =>
      match List.lookup "error" kvs with
      | some w => jvalIsObj w
      | none => true
    | .arr xs =>
      !(xs.any (strElem "error")) && !(xs.any (strElem "result"))
    | .str s =>
      !(charsInfixOf "error".toList s.toList) &&
      !(charsInfixOf "result".toList s.toList)
    | _ => false

/-- An HTTP outcome whose handling by `send_coordinates` stays inside
defined Python behaviour. -/
def httpSafe : HttpResult → Bool
  | .response _ _ mjson => jsonSafe mjson
  | _ => true

/-! ### Reduction lemmas for `send_coordinates` -/

/-- When all three dynamic variables are present, `send_coordinates`
issues the one share request and classifies its outcome. -/
lemma send_coordinates_present (self : GPSFabricConnector)
    (http : HttpRequest → HttpResult) (lat lon yaw : JVal)
    (h1 : self.io_provider "latitude" = some lat)
    (h2 : self.io_provider "longitude" = some lon)
    (h3 : self.io_provider "yaw_deg" = some yaw) :
    send_coordinates self http =
      { retval := classifyResponse (http (mkShareRequest self lat lon yaw)),
        posts := [mkShareRequest self lat lon yaw],
        selfState := self } := by
  unfold send_coordinates
  rw [h1, h2, h3]

/-- When any dynamic variable is absent, `send_coordinates` returns
`False` without issuing a request. -/
lemma send_coordinates_missing (self : GPSFabricConnector)
    (http : HttpRequest → HttpResult)
    (h : self.io_provider "latitude" = none ∨
         self.io_provider "longitude" = none ∨
         self.io_provider "yaw_deg" = none) :
    send_coordinates self http =
      { retval := .ok false, posts := [], selfState := self } := by
  unfold send_coordinates
  rcases h with h | h | h
  · cases h2 : self.io_provider "longitude" <;>
      cases h3 : self.io_provider "yaw_deg" <;> rw [h]
  · cases h1 : self.io_provider "latitude" <;>
      cases h3 : self.io_provider "yaw_deg" <;> rw [h]
  · cases h1 : self.io_provider "latitude" <;>
      cases h2 : self.io_provider "longitude" <;> rw [h]

/-- The instance state is unchanged by `send_coordinates`. -/
lemma send_coordinates_selfState (self : GPSFabricConnector)
    (http : HttpRequest → HttpResult) :
    (send_coordinates self http).selfState = self := by
  unfold send_coordinates
  cases h1 : self.io_provider "latitude" <;>
    cases h2 : self.io_provider "longitude" <;>
      cases h3 : self.io_provider "yaw_deg" <;> rfl

/-- The instance state is unchanged by `connect`. -/
lemma connect_selfState (self : GPSFabricConnector) (action : GPSAction)
    (http : HttpRequest → HttpResult) :
    (connect self action http).selfState = self := by
  cases action with
  | SHARE_LOCATION =>
    show (send_coordinates self http).selfState = self
    exact send_coordinates_selfState self http
  | other name => rfl

/-! ### Branch lemmas for `classifyResponse` -/

/-- A failing HTTP status short-circuits to `False`, whatever the body. -/
lemma classify_status_fail (status : Nat) (text : String) (mjson : Option JVal)
    (h : responseOk status = false) :
    classifyResponse (.response status text mjson) = .ok false := by
  simp only [classifyResponse]
  rw [h]
  rfl

/-- An unparseable body gives `False` (for any status). -/
lemma classify_json_none (status : Nat) (text : String) :
    classifyResponse (.response status text none) = .ok false := by
  simp only [classifyResponse]
  cases h : responseOk status <;> rfl

/-- A failing membership test `"error" in response_data` propagates. -/
lemma classify_contains_err (status : Nat) (text : String) (body : JVal)
    (e : PyErr) (hok : responseOk status = true)
    (hce : pyContains body "error" = .error e) :
    classifyResponse (.response status text (some body)) = .error e := by
  simp only [classifyResponse]
  rw [hok, hce]
  rfl

/-- An `"error"` member that is an object logs and returns `False`. -/
lemma classify_rpc_error_obj (status : Nat) (text : String) (body : JVal)
    (ekvs : List (String × JVal)) (hok : responseOk status = true)
    (hce : pyContains body "error" = .ok true)
    (hgi : pyGetItem body "error" = .ok (.obj ekvs)) :
    classifyResponse (.response status text (some body)) = .ok false := by
  simp only [classifyResponse]
  rw [hok, hce, hgi]
  rfl

/-- An `"error"` member that is not an object raises `AttributeError`
from `error.get("code")` while building the log message. -/
lemma classify_rpc_error_nonobj (status : Nat) (text : String) (body err : JVal)
    (hok : responseOk status = true)
    (hce : pyContains body "error" = .ok true)
    (hgi : pyGetItem body "error" = .ok err)
    (hno : jvalIsObj err = false) :
    classifyResponse (.response status text (some body)) =
      .error .attributeError := by
  simp only [classifyResponse]
  rw [hok, hce, hgi]
  cases err with
  | obj kvs => simp [jvalIsObj] at hno
  | null => rfl
  | bool b => rfl
  | num n => rfl
  | str s => rfl
  | arr xs => rfl

/-- A failing subscription `response_data["error"]` propagates. -/
lemma classify_rpc_error_item_err (status : Nat) (text : String) (body : JVal)
    (e : PyErr) (hok : responseOk status = true)
    (hce : pyContains body "error" = .ok true)
    (hgi : pyGetItem body "error" = .error e) :
    classifyResponse (.response status text (some body)) = .error e := by
  simp only [classifyResponse]
  rw [hok, hce, hgi]
  rfl

/-- A failing membership test `"result" in response_data` propagates. -/
lemma classify_result_contains_err (status : Nat) (text : String) (body : JVal)
    (e : PyErr) (hok : responseOk status = true)
    (hce : pyContains body "error" = .ok false)
    (hcr : pyContains body "result" = .error e) :
    classifyResponse (.response status text (some body)) = .error e := by
  simp only [classifyResponse]
  rw [hok, hce, hcr]
  rfl

/-- No `"error"` and no `"result"` member: `False`. -/
lemma classify_no_result (status : Nat) (text : String) (body : JVal)
    (hok : responseOk status = true)
    (hce : pyContains body "error" = .ok false)
    (hcr : pyContains body "result" = .ok false) :
    classifyResponse (.response status text (some body)) = .ok false := by
  simp only [classifyResponse]
  rw [hok, hce, hcr]
  rfl

/-- A failing subscription `response_data["result"]` propagates. -/
lemma classify_result_item_err (status : Nat) (text : String) (body : JVal)
    (e : PyErr) (hok : responseOk status = true)
    (hce : pyContains body "error" = .ok false)
    (hcr : pyContains body "result" = .ok true)
    (hgr : pyGetItem body "result" = .error e) :
    classifyResponse (.response status text (some body)) = .error e := by
  simp only [classifyResponse]
  rw [hok, hce, hcr, hgr]
  rfl

/-- No `"error"` and a present `"result"`: its truthiness decides. -/
lemma classify_result (status : Nat) (text : String) (body v : JVal)
    (hok : responseOk status = true)
    (hce : pyContains body "error" = .ok false)
    (hcr : pyContains body "result" = .ok true)
    (hgr : pyGetItem body "result" = .ok v) :
    classifyResponse (.response status text (some body)) =
      .ok (pyTruthy v) := by
  simp only [classifyResponse]
  rw [hok, hce, hcr, hgr]
  rfl

/-- A success-status body parsing to a bare scalar (`None`, a bool or a
number) raises `TypeError` from the membership test. -/
lemma classify_scalar (status : Nat) (text : String) (body : JVal)
    (hok : responseOk status = true) (hs : scalarJson body = true) :
    classifyResponse (.response status text (some body)) =
      .error .typeError := by
  cases body with
  | null => exact classify_contains_err _ _ _ _ hok rfl
  | bool b => exact classify_contains_err _ _ _ _ hok rfl
  | num n => exact classify_contains_err _ _ _ _ hok rfl
  | str s => simp [scalarJson] at hs
  | arr xs => simp [scalarJson] at hs
  | obj kvs => simp [scalarJson] at hs

/-- Full characterisation of success: `classifyResponse` yields `True`
exactly for a received response with passing status whose body parses,
has no `"error"` member, and has a truthy `"result"` member. -/
lemma classify_ok_true_iff (r : HttpResult) :
    classifyResponse r = .ok true ↔
      ∃ status text body,
        r = .response status text (some body) ∧
        responseOk status = true ∧
        pyContains body "error" = .ok false ∧
        pyContains body "result" = .ok true ∧
        ∃ v, pyGetItem body "result" = .ok v ∧ pyTruthy v = true := by
  constructor
  · intro h
    cases r with
    | timeout => simp [classifyResponse] at h
    | connectionError m => simp [classifyResponse] at h
    | requestError m => simp [classifyResponse] at h
    | response status text mjson =>
      cases hok : responseOk status with
      | false => rw [classify_status_fail status text mjson hok] at h; simp at h
      | true =>
        cases mjson with
        | none => rw [classify_json_none status text] at h; simp at h
        | some body =>
          cases hce : pyContains body "error" with
          | error e =>
            rw [classify_contains_err status text body e hok hce] at h
            exact absurd h (fun hc => Except.noConfusion hc)
          | ok berr =>
            cases berr with
            | true =>
              cases hgi : pyGetItem body "error" with
              | error e =>
                rw [classify_rpc_error_item_err status text body e hok hce hgi] at h
                exact absurd h (fun hc => Except.noConfusion hc)
              | ok err =>
                cases herr : jvalIsObj err with
                | false =>
                  rw [classify_rpc_error_nonobj status text body err hok hce hgi herr] at h
                  exact absurd h (fun hc => Except.noConfusion hc)
                | true =>
                  cases err with
                  | obj ekvs =>
                    rw [classify_rpc_error_obj status text body ekvs hok hce hgi] at h
                    simp at h
                  | null => simp [jvalIsObj] at herr
                  | bool b => simp [jvalIsObj] at herr
                  | num n => simp [jvalIsObj] at herr
                  | str s => simp [jvalIsObj] at herr
                  | arr xs => simp [jvalIsObj] at herr
            | false =>
              cases hcr : pyContains body "result" with
              | error e =>
                rw [classify_result_contains_err status text body e hok hce hcr] at h
                exact absurd h (fun hc => Except.noConfusion hc)
              | ok bres =>
                cases bres with
                | false =>
                  rw [classify_no_result status text body hok hce hcr] at h
                  simp at h
                | true =>
                  cases hgr : pyGetItem body "result" with
                  | error e =>
                    rw [classify_result_item_err status text body e hok hce hcr hgr] at h
                    exact absurd h (fun hc => Except.noConfusion hc)
                  | ok v =>
                    rw [classify_result status text body v hok hce hcr hgr] at h
                    exact ⟨status, text, body, rfl, hok, hce, hcr, v, hgr,
                      by simpa using h⟩
  · rintro ⟨status, text, body, rfl, hok, hce, hcr, v, hgr, hv⟩
    rw [classify_result status text body v hok hce hcr hgr, hv]

/-- `classifyResponse` stays inside defined Python behaviour on safe
bodies: some boolean is returned, no exception escapes. -/
lemma classify_safe (r : HttpResult) (h : httpSafe r = true) :
    ∃ b, classifyResponse r = .ok b := by
  cases r with
  | timeout => exact ⟨false, rfl⟩
  | connectionError m => exact ⟨false, rfl⟩
  | requestError m => exact ⟨false, rfl⟩
  | response status text mjson =>
    cases hok : responseOk status with
    | false => exact ⟨false, classify_status_fail status text mjson hok⟩
    | true =>
      cases mjson with
      | none => exact ⟨false, classify_json_none status text⟩
      | some v =>
        simp only [httpSafe] at h
        cases v with
        | null => simp [jsonSafe] at h
        | bool b => simp [jsonSafe] at h
        | num n => simp [jsonSafe] at h
        | obj kvs =>
          cases hl : List.lookup "error" kvs with
          | some w =>
            have hw : jvalIsObj w = true := by
              simpa [jsonSafe, hl] using h
            cases w with
            | obj ekvs =>
              exact ⟨false, classify_rpc_error_obj status text _ ekvs hok
                (by simp [pyContains, hl]) (by simp [pyGetItem, hl])⟩
            | null => simp [jvalIsObj] at hw
            | bool b => simp [jvalIsObj] at hw
            | num n => simp [jvalIsObj] at hw
            | str s => simp [jvalIsObj] at hw
            | arr xs => simp [jvalIsObj] at hw
          | none =>
            have hce : pyContains (.obj kvs) "error" = .ok false := by
              simp [pyContains, hl]
            cases hr : List.lookup "result" kvs with
            | some w =>
              exact ⟨pyTruthy w, classify_result status text _ w hok hce
                (by simp [pyContains, hr]) (by simp [pyGetItem, hr])⟩
            | none =>
              exact ⟨false, classify_no_result status text _ hok hce
                (by simp [pyContains, hr])⟩
        | arr xs =>
          simp only [jsonSafe, Bool.and_eq_true, Bool.not_eq_true'] at h
          obtain ⟨ha, hb⟩ := h
          exact ⟨false, classify_no_result status text _ hok
            (by simp [pyContains, ha]) (by simp [pyContains, hb])⟩
        | str s =>
          simp only [jsonSafe, Bool.and_eq_true, Bool.not_eq_true'] at h
          obtain ⟨ha, hb⟩ := h
          exact ⟨false, classify_no_result status text _ hok
            (by simp only [pyContains]; rw [ha])
            (by simp only [pyContains]; rw [hb])⟩

/-! ### Claims -/

/-- C1: if any of the three store lookups ("latitude", "longitude",
"yaw_deg") returns `None`, `send_coordinates` returns `False` and issues
no HTTP POST; the check is a disjunction, so a single missing value
aborts.  (The error log is observability and is not modelled.) -/
theorem C1_any_missing_aborts (self : GPSFabricConnector)
    (http : HttpRequest → HttpResult)
    (h : self.io_provider "latitude" = none ∨
         self.io_provider "longitude" = none ∨
         self.io_provider "yaw_deg" = none) :
    (send_coordinates self http).retval = .ok false ∧
    (send_coordinates self http).posts = [] := by
  rw [send_coordinates_missing self http h]
  exact ⟨rfl, rfl⟩

/-- Witness for C1: latitude absent while the other two are present, and
the network would even answer success — still `False` and no POST. -/
theorem C1_any_missing_aborts_witness :
    (send_coordinates (connOf none (some (.num 122)) (some (.num 90)))
        (httpConst (.response 200 "" (some (.obj [("result", .bool true)]))))).retval
      = .ok false ∧
    (send_coordinates (connOf none (some (.num 122)) (some (.num 90)))
        (httpConst (.response 200 "" (some (.obj [("result", .bool true)]))))).posts
      = [] :=
  C1_any_missing_aborts _ _ (Or.inl rfl)

/-- C3: with all three values present, `send_coordinates` issues exactly
one POST, to the configured endpoint, with header
`Content-Type: application/json`, the configured timeout, and the JSON-RPC
body `{"method": "omp2p_shareStatus", "params": [{"latitude": L,
"longitude": G, "yaw": Y}], "id": 1, "jsonrpc": "2.0"}`. -/
theorem C3_post_envelope (self : GPSFabricConnector)
    (http : HttpRequest → HttpResult) (lat lon yaw : JVal)
    (h1 : self.io_provider "latitude" = some lat)
    (h2 : self.io_provider "longitude" = some lon)
    (h3 : self.io_provider "yaw_deg" = some yaw) :
    (send_coordinates self http).posts =
      [{ url := self.fabric_endpoint,
         body := .obj [("method", .str "omp2p_shareStatus"),
                       ("params", .arr [.obj [("latitude", lat),
                                              ("longitude", lon),
                                              ("yaw", yaw)]]),
                       ("id", .num 1),
                       ("jsonrpc", .str "2.0")],
         headers := [("Content-Type", "application/json")],
         timeout := self.request_timeout }] := by
  rw [send_coordinates_present self http lat lon yaw h1 h2 h3]
  rfl

/-- Witness for C3 at a concrete connector and coordinates. -/
theorem C3_post_envelope_witness :
    (send_coordinates (connOf (some (.num 37)) (some (.num 122)) (some (.num 90)))
        (httpConst .timeout)).posts =
      [{ url := "http://localhost:8545",
         body := .obj [("method", .str "omp2p_shareStatus"),
                       ("params", .arr [.obj [("latitude", .num 37),
                                              ("longitude", .num 122),
                                              ("yaw", .num 90)]]),
                       ("id", .num 1),
                       ("jsonrpc", .str "2.0")],
         headers := [("Content-Type", "application/json")],
         timeout := 10 }] :=
  C3_post_envelope _ _ (.num 37) (.num 122) (.num 90) rfl rfl rfl

/-- C6: `connect` invokes `send_coordinates` exactly when the action is
`SHARE_LOCATION`, discarding the returned boolean (`Except.map` to `()`),
and for every other action issues no POST, returns normally and leaves
the instance unchanged. -/
theorem C6_connect_dispatch (self : GPSFabricConnector)
    (http : HttpRequest → HttpResult) :
    ((connect self .SHARE_LOCATION http).posts =
        (send_coordinates self http).posts ∧
      (connect self .SHARE_LOCATION http).retval =
        Except.map (fun _ => ()) (send_coordinates self http).retval) ∧
    ∀ name, (connect self (.other name) http).posts = [] ∧
            (connect self (.other name) http).retval = .ok () ∧
            (connect self (.other name) http).selfState = self :=
  ⟨⟨rfl, rfl⟩, fun _ => ⟨rfl, rfl, rfl⟩⟩

/-- C7: neither `send_coordinates` nor `connect` mutates instance state:
the connector (its `io_provider`, `fabric_endpoint` and `request_timeout`)
is identical after every call. -/
theorem C7_stateless (self : GPSFabricConnector) (action : GPSAction)
    (http : HttpRequest → HttpResult) :
    (send_coordinates self http).selfState = self ∧
    (connect self action http).selfState = self :=
  ⟨send_coordinates_selfState self http, connect_selfState self action http⟩

/-- C8: a default-constructed configuration yields endpoint
`http://localhost:8545` and timeout `10`, and those are the URL and
timeout of the issued POST. -/
theorem C8_default_config (store : String → Option JVal)
    (http : HttpRequest → HttpResult) (lat lon yaw : JVal)
    (h1 : store "latitude" = some lat)
    (h2 : store "longitude" = some lon)
    (h3 : store "yaw_deg" = some yaw) :
    (GPSFabricConnector.init {} store).fabric_endpoint = "http://localhost:8545" ∧
    (GPSFabricConnector.init {} store).request_timeout = 10 ∧
    (send_coordinates (GPSFabricConnector.init {} store) http).posts.map
        HttpRequest.url = ["http://localhost:8545"] ∧
    (send_coordinates (GPSFabricConnector.init {} store) http).posts.map
        HttpRequest.timeout = [10] := by
  have hp := send_coordinates_present (GPSFabricConnector.init {} store) http
    lat lon yaw h1 h2 h3
  refine ⟨rfl, rfl, ?_, ?_⟩ <;> rw [hp] <;> rfl

/-- Witness for C8 at a concrete store. -/
theorem C8_default_config_witness :
    (GPSFabricConnector.init {}
        (storeOf (some (.num 1)) (some (.num 2)) (some (.num 3)))).fabric_endpoint
      = "http://localhost:8545" ∧
    (GPSFabricConnector.init {}
        (storeOf (some (.num 1)) (some (.num 2)) (some (.num 3)))).request_timeout
      = 10 ∧
    (send_coordinates
        (GPSFabricConnector.init {}
          (storeOf (some (.num 1)) (some (.num 2)) (some (.num 3))))
        (httpConst .timeout)).posts.map HttpRequest.url
      = ["http://localhost:8545"] ∧
    (send_coordinates
        (GPSFabricConnector.init {}
          (storeOf (some (.num 1)) (some (.num 2)) (some (.num 3))))
        (httpConst .timeout)).posts.map HttpRequest.timeout
      = [10] :=
  C8_default_config _ _ (.num 1) (.num 2) (.num 3) rfl rfl rfl

/-- C10: presence validation tests only identity with `None`: any
non-`None` values — falsy or non-numeric included — pass validation and
are embedded unchanged in the JSON-RPC body of the single POST. -/
theorem C10_none_check_only (self : GPSFabricConnector)
    (http : HttpRequest → HttpResult) (lat lon yaw : JVal)
    (h1 : self.io_provider "latitude" = some lat)
    (h2 : self.io_provider "longitude" = some lon)
    (h3 : self.io_provider "yaw_deg" = some yaw) :
    (send_coordinates self http).posts = [mkShareRequest self lat lon yaw] ∧
    (send_coordinates self http).posts.map HttpRequest.body =
      [shareStatusBody lat lon yaw] := by
  rw [send_coordinates_present self http lat lon yaw h1 h2 h3]
  exact ⟨rfl, rfl⟩

/-- Witness for C10 with the falsy values `0`, `""` and `False`: all pass
validation and travel unchanged. -/
theorem C10_none_check_only_witness :
    (send_coordinates (connOf (some (.num 0)) (some (.str "")) (some (.bool false)))
        (httpConst .timeout)).posts =
      [mkShareRequest (connOf (some (.num 0)) (some (.str "")) (some (.bool false)))
        (.num 0) (.str "") (.bool false)] ∧
    (send_coordinates (connOf (some (.num 0)) (some (.str "")) (some (.bool false)))
        (httpConst .timeout)).posts.map HttpRequest.body =
      [shareStatusBody (.num 0) (.str "") (.bool false)] :=
  C10_none_check_only _ _ (.num 0) (.str "") (.bool false) rfl rfl rfl

/-- C2: with the coordinates present, `send_coordinates` returns `True`
iff the POST yields a response (no transport exception) with passing
status whose body parses as JSON, contains no `"error"` member, and
contains a truthy `"result"` member; in particular `{"result": false}`,
`{"result": null}` or a missing `"result"` give `False` and
`{"result": true}` gives `True`. -/
theorem C2_true_iff_success (self : GPSFabricConnector)
    (http : HttpRequest → HttpResult) (lat lon yaw : JVal)
    (h1 : self.io_provider "latitude" = some lat)
    (h2 : self.io_provider "longitude" = some lon)
    (h3 : self.io_provider "yaw_deg" = some yaw) :
    (send_coordinates self http).retval = .ok true ↔
      ∃ status text body,
        http (mkShareRequest self lat lon yaw) =
          .response status text (some body) ∧
        responseOk status = true ∧
        pyContains body "error" = .ok false ∧
        pyContains body "result" = .ok true ∧
        ∃ v, pyGetItem body "result" = .ok v ∧ pyTruthy v = true := by
  rw [send_coordinates_present self http lat lon yaw h1 h2 h3]
  exact classify_ok_true_iff (http (mkShareRequest self lat lon yaw))

/-- Witness for C2: a 200 response with body `{"result": true}` makes
`send_coordinates` return `True`. -/
theorem C2_true_iff_success_witness :
    (send_coordinates (connOf (some (.num 37)) (some (.num 122)) (some (.num 90)))
        (httpConst (.response 200 "" (some (.obj [("result", .bool true)]))))).retval
      = .ok true :=
  (C2_true_iff_success _ _ (.num 37) (.num 122) (.num 90) rfl rfl rfl).mpr
    ⟨200, "", .obj [("result", .bool true)], rfl, rfl, rfl, rfl,
      .bool true, rfl, rfl⟩

/-- Counterexample to C4 as stated: a 200 response with body
`{"error": 5, "result": true}` has an `"error"` field, but the call does
not return `False` — `error.get("code")` raises `AttributeError`. -/
theorem C4_counterexample_error_nonobj :
    (send_coordinates (connOf (some (.num 37)) (some (.num 122)) (some (.num 90)))
        (httpConst (.response 200 ""
          (some (.obj [("error", .num 5), ("result", .bool true)]))))).retval
      = .error .attributeError ∧
    (send_coordinates (connOf (some (.num 37)) (some (.num 122)) (some (.num 90)))
        (httpConst (.response 200 ""
          (some (.obj [("error", .num 5), ("result", .bool true)]))))).retval
      ≠ .ok false := by
  have hx : (send_coordinates (connOf (some (.num 37)) (some (.num 122)) (some (.num 90)))
      (httpConst (.response 200 ""
        (some (.obj [("error", .num 5), ("result", .bool true)]))))).retval
      = Except.error PyErr.attributeError := rfl
  refine ⟨hx, ?_⟩
  rw [hx]
  intro hcon
  exact Except.noConfusion hcon

/-- C4 as amended: the classification is strictly in order with the first
matching branch returning — a non-passing status gives `False` whatever
the body, a parse failure gives `False` before any field check, and a
present `"error"` field prevents a `True` return before `"result"` is
considered: the call returns `False` when the `"error"` value is an
object (even alongside a truthy `"result"`), and raises otherwise. -/
theorem C4_ordering_amended (self : GPSFabricConnector)
    (http : HttpRequest → HttpResult) (lat lon yaw : JVal)
    (status : Nat) (text : String) (mjson : Option JVal)
    (h1 : self.io_provider "latitude" = some lat)
    (h2 : self.io_provider "longitude" = some lon)
    (h3 : self.io_provider "yaw_deg" = some yaw)
    (hhttp : http (mkShareRequest self lat lon yaw) =
      .response status text mjson) :
    (responseOk status = false →
      (send_coordinates self http).retval = .ok false) ∧
    (mjson = none → (send_coordinates self http).retval = .ok false) ∧
    (∀ body, mjson = some body → pyContains body "error" = .ok true →
      (send_coordinates self http).retval ≠ .ok true ∧
      (∀ ekvs, pyGetItem body "error" = .ok (.obj ekvs) →
        (send_coordinates self http).retval = .ok false)) := by
  rw [send_coordinates_present self http lat lon yaw h1 h2 h3]
  refine ⟨?_, ?_, ?_⟩
  · intro hbad
    show classifyResponse (http (mkShareRequest self lat lon yaw)) = .ok false
    rw [hhttp]
    exact classify_status_fail status text mjson hbad
  · rintro rfl
    show classifyResponse (http (mkShareRequest self lat lon yaw)) = .ok false
    rw [hhttp]
    exact classify_json_none status text
  · rintro body rfl hce
    constructor
    · show classifyResponse (http (mkShareRequest self lat lon yaw)) ≠ .ok true
      rw [hhttp]
      cases hok : responseOk status with
      | false =>
        rw [classify_status_fail status text _ hok]
        intro hcon
        injection hcon with hb
        exact Bool.noConfusion hb
      | true =>
        cases hgi : pyGetItem body "error" with
        | error e =>
          rw [classify_rpc_error_item_err status text body e hok hce hgi]
          intro hcon
          exact Except.noConfusion hcon
        | ok err =>
          cases herr : jvalIsObj err with
          | false =>
            rw [classify_rpc_error_nonobj status text body err hok hce hgi herr]
            intro hcon
            exact Except.noConfusion hcon
          | true =>
            cases err with
            | obj ekvs =>
              rw [classify_rpc_error_obj status text body ekvs hok hce hgi]
              intro hcon
              injection hcon with hb
              exact Bool.noConfusion hb
            | null => simp [jvalIsObj] at herr
            | bool b => simp [jvalIsObj] at herr
            | num n => simp [jvalIsObj] at herr
            | str s => simp [jvalIsObj] at herr
            | arr xs => simp [jvalIsObj] at herr
    · rintro ekvs hgi
      show classifyResponse (http (mkShareRequest self lat lon yaw)) = .ok false
      rw [hhttp]
      cases hok : responseOk status with
      | false => exact classify_status_fail status text _ hok
      | true => exact classify_rpc_error_obj status text body ekvs hok hce hgi

/-- Witness for the amended C4: a 500 response returns `False` whatever
its body. -/
theorem C4_ordering_amended_witness :
    (send_coordinates (connOf (some (.num 37)) (some (.num 122)) (some (.num 90)))
        (httpConst (.response 500 "boom"
          (some (.obj [("result", .bool true)]))))).retval = .ok false :=
  (C4_ordering_amended _ _ (.num 37) (.num 122) (.num 90) 500 "boom"
    (some (.obj [("result", .bool true)])) rfl rfl rfl rfl).1 rfl

/-- Counterexample to C5 as stated: a 200 response whose body parses to
the bare number `5` makes the membership test `"error" in response_data`
raise `TypeError`, which propagates through `send_coordinates` and out of
`connect`. -/
theorem C5_counterexample_scalar_body :
    (connect (connOf (some (.num 37)) (some (.num 122)) (some (.num 90)))
        .SHARE_LOCATION
        (httpConst (.response 200 "5" (some (.num 5))))).retval
      = .error .typeError ∧
    (connect (connOf (some (.num 37)) (some (.num 122)) (some (.num 90)))
        .SHARE_LOCATION
        (httpConst (.response 200 "5" (some (.num 5))))).retval
      ≠ .ok () := by
  have hx : (connect (connOf (some (.num 37)) (some (.num 122)) (some (.num 90)))
      .SHARE_LOCATION (httpConst (.response 200 "5" (some (.num 5))))).retval
      = Except.error PyErr.typeError := rfl
  refine ⟨hx, ?_⟩
  rw [hx]
  intro hcon
  exact Except.noConfusion hcon

/-- C5 as amended: for every store outcome and every HTTP outcome whose
parsed body stays inside defined Python membership/subscript behaviour
(`httpSafe`), `send_coordinates` returns a boolean and `connect` returns
normally — every failure kind is converted locally to `False` plus a log;
for a success-status body parsing to a bare scalar, or to a container on
which the `"error"`/`"result"` handling is undefined, a
`TypeError`/`AttributeError` escapes instead (see the counterexample). -/
theorem C5_no_throw_amended (self : GPSFabricConnector) (action : GPSAction)
    (http : HttpRequest → HttpResult)
    (hsafe : ∀ req, httpSafe (http req) = true) :
    (∃ b, (send_coordinates self http).retval = .ok b) ∧
    (connect self action http).retval = .ok () := by
  have hsend : ∃ b, (send_coordinates self http).retval = .ok b := by
    cases hlat : self.io_provider "latitude" with
    | none =>
      rw [send_coordinates_missing self http (Or.inl hlat)]
      exact ⟨false, rfl⟩
    | some lat =>
      cases hlon : self.io_provider "longitude" with
      | none =>
        rw [send_coordinates_missing self http (Or.inr (Or.inl hlon))]
        exact ⟨false, rfl⟩
      | some lon =>
        cases hyaw : self.io_provider "yaw_deg" with
        | none =>
          rw [send_coordinates_missing self http (Or.inr (Or.inr hyaw))]
          exact ⟨false, rfl⟩
        | some yaw =>
          rw [send_coordinates_present self http lat lon yaw hlat hlon hyaw]
          exact classify_safe _ (hsafe _)
  refine ⟨hsend, ?_⟩
  cases action with
  | SHARE_LOCATION =>
    obtain ⟨b, hb⟩ := hsend
    show ((send_coordinates self http).retval).map (fun _ => ()) = .ok ()
    rw [hb]
    rfl
  | other name => rfl

/-- Witness for the amended C5 on a well-formed success response. -/
theorem C5_no_throw_amended_witness :
    (∃ b, (send_coordinates
        (connOf (some (.num 37)) (some (.num 122)) (some (.num 90)))
        (httpConst (.response 200 "" (some (.obj [("result", .bool true)]))))).retval
      = .ok b) ∧
    (connect (connOf (some (.num 37)) (some (.num 122)) (some (.num 90)))
        .SHARE_LOCATION
        (httpConst (.response 200 "" (some (.obj [("result", .bool true)]))))).retval
      = .ok () :=
  C5_no_throw_amended _ .SHARE_LOCATION _ (fun _ => rfl)

/-- C9: a success-status body parsing to a bare scalar (`5`, `true`,
`null`) makes `send_coordinates` raise `TypeError` from
`"error" in response_data`; an `"error"` member that is not an object
makes it raise `AttributeError` from `error.get("code")`. -/
theorem C9_uncaught_runtime_errors (self : GPSFabricConnector)
    (http : HttpRequest → HttpResult) (lat lon yaw : JVal)
    (status : Nat) (text : String) (j : JVal)
    (h1 : self.io_provider "latitude" = some lat)
    (h2 : self.io_provider "longitude" = some lon)
    (h3 : self.io_provider "yaw_deg" = some yaw)
    (hhttp : http (mkShareRequest self lat lon yaw) =
      .response status text (some j))
    (hok : responseOk status = true) :
    (scalarJson j = true →
      (send_coordinates self http).retval = .error .typeError) ∧
    (∀ kvs ev, j = .obj kvs → List.lookup "error" kvs = some ev →
      jvalIsObj ev = false →
      (send_coordinates self http).retval = .error .attributeError) := by
  rw [send_coordinates_present self http lat lon yaw h1 h2 h3]
  constructor
  · intro hs
    show classifyResponse (http (mkShareRequest self lat lon yaw)) =
      .error .typeError
    rw [hhttp]
    exact classify_scalar status text j hok hs
  · rintro kvs ev rfl hlk hno
    show classifyResponse (http (mkShareRequest self lat lon yaw)) =
      .error .attributeError
    rw [hhttp]
    exact classify_rpc_error_nonobj status text (.obj kvs) ev hok
      (by simp [pyContains, hlk]) (by simp [pyGetItem, hlk]) hno

/-- Witness for C9: a 200 response with body `5` raises `TypeError`. -/
theorem C9_uncaught_runtime_errors_witness :
    (send_coordinates (connOf (some (.num 37)) (some (.num 122)) (some (.num 90)))
        (httpConst (.response 200 "5" (some (.num 5))))).retval
      = .error .typeError :=
  (C9_uncaught_runtime_errors _ _ (.num 37) (.num 122) (.num 90) 200 "5"
    (.num 5) rfl rfl rfl rfl rfl).1 rfl

end OM1GPS
